import Mathlib

/-!
Shallow embedding of the voice-agent repository (src/voice_agent.py and
src/test_agent.py).  External effects — HTTP responses of the Ollama
service, microphone/recognition outcomes, environment variables, and
console prints — are made explicit: the environment is passed in as
functions and data, and every print becomes an `Output` event in a trace.
-/

/-- A parsed JSON value, as produced by Python's `response.json()`. -/
inductive Json where
  | null
  | bool (b : Bool)
  | num (n : Int)
  | str (s : String)
  | arr (elems : List Json)
  | obj (fields : List (String × Json))

/-- Python truthiness (`if response:`): empty string, zero, empty
containers, `None` and `False` are falsy. -/
def Json.truthy : Json → Bool
  | .null => false
  | .bool b => b
  | .num n => !(n == 0)
  | .str s => !(s == "")
  | .arr elems => !elems.isEmpty
  | .obj fields => !fields.isEmpty

/-- Python `value.get(key, default)`.  `.ok` with the looked-up field (or
the default when the key is absent) when `value` is a dict; `.error` — an
`AttributeError` — when it is any other JSON value. -/
def Json.getD (j : Json) (key : String) (dflt : Json) : Except Unit Json :=
  match j with
  | .obj fields =>
    match fields.lookup key with
    | some v => .ok v
    | none => .ok dflt
  | _ => .error ()

/-- `result.get("message", {}).get("content", "Нет ответа")` from
`get_llm_response` / `test_text_to_llm`; `.error` when an
`AttributeError` is raised along the way. -/
def extractReply (body : Json) : Except Unit Json :=
  match body.getD "message" (.obj []) with
  | .error e => .error e
  | .ok msg => msg.getD "content" (.str "Нет ответа")

/-- Python `str.lower` restricted to the alphabets the program actually
uses: ASCII Latin letters and Russian Cyrillic (А..Я and Ё).  These cover
every character of the termination-keyword set. -/
def pyCharLower (c : Char) : Char :=
  if c.toNat ≥ 65 ∧ c.toNat ≤ 90 then Char.ofNat (c.toNat + 32)
  else if c.toNat ≥ 0x410 ∧ c.toNat ≤ 0x42F then Char.ofNat (c.toNat + 32)
  else if c.toNat = 0x401 then Char.ofNat 0x451
  else c

/-- Python `s.lower()` (on the modelled alphabets), character-wise. -/
def pyLower (s : String) : String := ⟨s.data.map pyCharLower⟩

/-- `startsWithChars hay needle`: `needle` is an initial run of `hay`. -/
def startsWithChars : List Char → List Char → Bool
  | _, [] => true
  | [], _ :: _ => false
  | a :: as, b :: bs => a == b && startsWithChars as bs

/-- `needle` occurs as a contiguous run somewhere in `hay`. -/
def containsChars (needle : List Char) : List Char → Bool
  | [] => needle.isEmpty
  | c :: rest => startsWithChars (c :: rest) needle || containsChars needle rest

/-- Python `needle in hay` on strings (substring test). -/
def pyInStr (needle hay : String) : Bool := containsChars needle.data hay.data

/-- Python `a or b` where `a` is an optional string argument: `b` is used
when `a` is `None` or empty (falsy). -/
def pyOr (a : Option String) (b : String) : String :=
  match a with
  | some s => if s == "" then b else s
  | none => b

/-- `os.getenv(key, dflt)`: the variable's value when set (even empty),
else the default.  `envMap` is the process environment. -/
def getenvD (envMap : String → Option String) (key dflt : String) : String :=
  (envMap key).getD dflt

/-- The JSON payload of one chat call: model, a single-message list of
(role, content) pairs, and the streaming flag. -/
structure ChatRequest where
  model : String
  messages : List (String × String)
  stream : Bool

/-- The payload built by `get_llm_response` / `test_text_to_llm`:
`{"model": model, "messages": [{"role": "user", "content": text}],
"stream": False}`. -/
def mkPayload (model text : String) : ChatRequest :=
  { model := model, messages := [("user", text)], stream := false }

/-- An HTTP response: status code, raw body text, and the result of
parsing the body as JSON (`none` when `response.json()` would raise). -/
structure HttpResponse where
  status : Nat
  text : String
  jsonBody : Option Json

/-- Outcome of one `requests.post` call, as seen by the caller. -/
inductive HttpResult where
  | resp (r : HttpResponse)
  | timeoutExc
  | connExc
  | otherExc

/-- Outcome of one `requests.get` call on the tags endpoint. -/
inductive ProbeOutcome where
  | resp (status : Nat)
  | exc

/-- The status code of a probe outcome, when a response arrived. -/
def statusOf : ProbeOutcome → Option Nat
  | .resp s => some s
  | .exc => none

/-- One console print / external action, abstracted to an event. -/
inductive Output where
  | micCapture
  | processingNotice
  | recognizedNotice (t : String)
  | listenTimeoutNotice
  | unrecognizedNotice
  | recServiceErrorNotice
  | sendingNotice (model : String)
  | chatRequestEvent (p : ChatRequest)
  | getRequestEvent (url : String)
  | apiErrorStatus (code : Nat)
  | rawBodyNotice (t : String)
  | llmTimeoutNotice
  | llmErrorNotice
  | connHintNotice (url : String)
  | replyBlock (r : Json)
  | confirmPrompt
  | farewell
  | testHeaderNotice (i : Nat)
  | queryNotice (q : String)
  | separatorNotice
  | genericErrorNotice

/-- Is this event the blocking `input(...)` confirmation prompt? -/
def Output.isConfirm : Output → Bool
  | .confirmPrompt => true
  | _ => false

/-- Is this event a presented reply (`✅ Ответ LLM: ...`)? -/
def Output.isReplyBlock : Output → Bool
  | .replyBlock _ => true
  | _ => false

/-- Is this event an audio capture (opening the microphone)? -/
def Output.isCapture : Output → Bool
  | .micCapture => true
  | _ => false

/-- Is this event the terminal printed block of one diagnostic query
(one reply block or one error notice)? -/
def Output.isResultBlock : Output → Bool
  | .replyBlock _ => true
  | .apiErrorStatus _ => true
  | .connHintNotice _ => true
  | .genericErrorNotice => true
  | .llmTimeoutNotice => true
  | .llmErrorNotice => true
  | _ => false

/-- The chat requests issued in a trace, in order. -/
def requestsOf (trace : List Output) : List ChatRequest :=
  trace.filterMap (fun o => match o with
    | .chatRequestEvent p => some p
    | _ => none)

/-- Default service base address (`voice_agent.py` line 21). -/
def defaultUrl : String := "http://localhost:11434/api"

/-- Default model name (`voice_agent.py` line 22). -/
def defaultModel : String := "llama3.2"

/-- Resolution of the base address: constructor argument `or`
`os.getenv('OLLAMA_BASE_URL', default)`. -/
def resolveUrl (override : Option String) (envMap : String → Option String) : String :=
  pyOr override (getenvD envMap "OLLAMA_BASE_URL" defaultUrl)

/-- Resolution of the model: constructor argument `or`
`os.getenv('OLLAMA_MODEL', default)`. -/
def resolveModel (override : Option String) (envMap : String → Option String) : String :=
  pyOr override (getenvD envMap "OLLAMA_MODEL" defaultModel)

/-- The agent's resolved configuration (the `recognizer` field wraps the
speech library and carries no modelled state). -/
structure VoiceAgent where
  ollama_url : String
  model : String

/-- The URL the availability probe hits:
`f"{self.ollama_url.replace('/api', '')}/api/tags"`. -/
def probeUrl (base : String) : String :=
  (base.replace "/api" "") ++ "/api/tags"

/-- `VoiceAgent._check_ollama_available`: one GET to the tags endpoint;
`true` exactly on status 200, any exception giving `false`. -/
def _check_ollama_available (base : String) (net : String → ProbeOutcome) :
    Bool × List Output :=
  match net (probeUrl base) with
  | .resp s => (s == 200, [.getRequestEvent (probeUrl base)])
  | .exc => (false, [.getRequestEvent (probeUrl base)])

/-- `VoiceAgent.__init__`: resolve the configuration, probe availability,
raise `ConnectionError` (here: `.error` with the message) when the probe
is negative. -/
def VoiceAgent.init (url? model? : Option String) (envMap : String → Option String)
    (net : String → ProbeOutcome) : Except String VoiceAgent × List Output :=
  let url := resolveUrl url? envMap
  let model := resolveModel model? envMap
  let c := _check_ollama_available url net
  (if c.1 then .ok ⟨url, model⟩
   else .error ("Ollama недоступна по адресу " ++ url), c.2)

/-- Outcome of one microphone capture / recognition attempt, the
environment's side of `listen`. -/
inductive ListenOutcome where
  | heard (t : String)
  | waitTimeout
  | unknownValue
  | requestError (e : String)

/-- `VoiceAgent.listen`: scoped capture, then recognition; every failure
is caught and converted to `none` plus a printed notice. -/
def listen (lo : ListenOutcome) : Option String × List Output :=
  match lo with
  | .heard t => (some t, [.micCapture, .processingNotice, .recognizedNotice t])
  | .waitTimeout => (none, [.micCapture, .listenTimeoutNotice])
  | .unknownValue => (none, [.micCapture, .unrecognizedNotice])
  | .requestError _ => (none, [.micCapture, .recServiceErrorNotice])

/-- `VoiceAgent.get_llm_response`: build the payload, POST it, and map
every failure (non-200 status, JSON parse error, attribute error,
timeout, any other exception) to `none` plus a notice.  On success the
extracted `message.content` value is returned as-is. -/
def get_llm_response (a : VoiceAgent) (text : String)
    (net : ChatRequest → HttpResult) : Option Json × List Output :=
  let p := mkPayload a.model text
  let pre : List Output := [.sendingNotice a.model, .chatRequestEvent p]
  match net p with
  | .timeoutExc => (none, pre ++ [.llmTimeoutNotice])
  | .connExc => (none, pre ++ [.llmErrorNotice])
  | .otherExc => (none, pre ++ [.llmErrorNotice])
  | .resp r =>
    if r.status ≠ 200 then (none, pre ++ [.apiErrorStatus r.status])
    else
      match r.jsonBody with
      | none => (none, pre ++ [.llmErrorNotice])
      | some j =>
        match extractReply j with
        | .error _ => (none, pre ++ [.llmErrorNotice])
        | .ok content => (some content, pre)

/-- `VoiceAgent.process_voice_command`: listen, then query the LLM; the
reply is presented and returned only when truthy. -/
def process_voice_command (a : VoiceAgent) (lo : ListenOutcome)
    (net : ChatRequest → HttpResult) : Option Json × List Output :=
  let (text?, out1) := listen lo
  match text? with
  | none => (none, out1)
  | some t =>
    let (resp?, out2) := get_llm_response a t net
    match resp? with
    | none => (none, out1 ++ out2)
    | some r =>
      if r.truthy then (some r, out1 ++ out2 ++ [.replyBlock r])
      else (none, out1 ++ out2)

/-- The termination keywords of `main` (`voice_agent.py` line 151). -/
def exitWords : List String := ["выход", "exit", "quit", "стоп"]

/-- `any(word in result.lower() for word in [...])`. -/
def keywordHit (s : String) : Bool :=
  exitWords.any (fun w => pyInStr w (pyLower s))

/-- What one pass of the `while True:` body does to the loop. -/
inductive LoopStep where
  | terminated
  | crashed
  | toIdle
deriving DecidableEq

/-- One iteration of the voice-mode loop (`main`, `voice_agent.py` lines
147–155): process a command; when a (truthy) reply came back, check it
for termination keywords and break on a hit; otherwise fall through to
the unconditional blocking `input(...)` prompt.  A non-string reply makes
`result.lower()` raise, which escapes the loop (`.crashed`). -/
def mainIteration (a : VoiceAgent) (lo : ListenOutcome)
    (net : ChatRequest → HttpResult) : LoopStep × List Output :=
  let pr := process_voice_command a lo net
  match pr.1 with
  | none => (.toIdle, pr.2 ++ [.confirmPrompt])
  | some r =>
    match r with
    | .str s =>
      if keywordHit s then (.terminated, pr.2 ++ [.farewell])
      else (.toIdle, pr.2 ++ [.confirmPrompt])
    | _ => (.crashed, pr.2)

/-- `test_text_to_llm` from `test_agent.py`: resolve configuration per
call, POST the payload, print exactly one terminal block (reply or error
notice); on non-200 also print the raw response body; never raise. -/
def test_text_to_llm (text : String) (url? model? : Option String)
    (envMap : String → Option String) (net : ChatRequest → HttpResult) :
    List Output :=
  let url := resolveUrl url? envMap
  let model := resolveModel model? envMap
  let p := mkPayload model text
  let pre : List Output := [.queryNotice text, .sendingNotice model, .chatRequestEvent p]
  match net p with
  | .connExc => pre ++ [.connHintNotice url]
  | .timeoutExc => pre ++ [.genericErrorNotice]
  | .otherExc => pre ++ [.genericErrorNotice]
  | .resp r =>
    if r.status ≠ 200 then pre ++ [.apiErrorStatus r.status, .rawBodyNotice r.text]
    else
      match r.jsonBody with
      | none => pre ++ [.genericErrorNotice]
      | some j =>
        match extractReply j with
        | .error _ => pre ++ [.genericErrorNotice]
        | .ok content => pre ++ [.replyBlock content, .separatorNotice]

/-- The fixed diagnostic queries (`test_agent.py` lines 73–77). -/
def test_queries : List String :=
  ["посчитай два плюс два",
   "дай определение искусственного интеллекта в одном предложении",
   "скажи короткий анекдот"]

/-- The enumerated `for i, query in enumerate(test_queries, 1)` body. -/
def runQueries (envMap : String → Option String) (net : ChatRequest → HttpResult) :
    Nat → List String → List Output
  | _, [] => []
  | i, q :: rest =>
    [.testHeaderNotice i] ++ test_text_to_llm q none none envMap net
      ++ runQueries envMap net (i + 1) rest

/-- `main` of `test_agent.py` (the configuration banner, incidental glue,
is not modelled): run the three diagnostic queries once and finish. -/
def testMain (envMap : String → Option String) (net : ChatRequest → HttpResult) :
    List Output :=
  runQueries envMap net 1 test_queries

/-- A stub endpoint returning the same result to every request. -/
def stubNet (r : HttpResult) : ChatRequest → HttpResult := fun _ => r

/-- A stub endpoint answering 200 with `{"message": {"content": s}}`. -/
def chatStub (s : String) : ChatRequest → HttpResult :=
  stubNet (.resp ⟨200, "", some (.obj [("message", .obj [("content", .str s)])])⟩)

/-- An agent with the default configuration, for concrete runs. -/
def dAgent : VoiceAgent := ⟨defaultUrl, defaultModel⟩

/-- `Except` success test. -/
def isOkE {ε α : Type} : Except ε α → Bool
  | .ok _ => true
  | .error _ => false

/-- The resolution rule as the spec words it: the override when provided
and non-empty, else the environment value when set, else the default. -/
def specResolve (override env : Option String) (dflt : String) : String :=
  match override with
  | some s => if s = "" then (match env with | some e => e | none => dflt) else s
  | none => match env with | some e => e | none => dflt

/-! ## Helper lemmas -/

theorem requestsOf_append (a b : List Output) :
    requestsOf (a ++ b) = requestsOf a ++ requestsOf b := by
  simp [requestsOf]

theorem requestsOf_nil : requestsOf [] = [] := rfl

theorem requestsOf_header (i : Nat) :
    requestsOf [Output.testHeaderNotice i] = [] := rfl

/-- The probe's boolean, as a function of the single GET's outcome. -/
def statusBool : ProbeOutcome → Bool
  | .resp s => s == 200
  | .exc => false

theorem check_eq (base : String) (net : String → ProbeOutcome) :
    _check_ollama_available base net
      = (statusBool (net (probeUrl base)), [Output.getRequestEvent (probeUrl base)]) := by
  unfold _check_ollama_available statusBool
  cases net (probeUrl base) <;> rfl

theorem statusBool_iff (po : ProbeOutcome) :
    statusBool po = true ↔ statusOf po = some 200 := by
  cases po <;> simp [statusBool, statusOf]

theorem resolve_matches_spec (o e : Option String) (d : String) :
    pyOr o (e.getD d) = specResolve o e d := by
  cases o with
  | none => cases e <;> simp [pyOr, specResolve]
  | some s =>
    by_cases hs : s = ""
    · subst hs; cases e <;> simp [pyOr, specResolve]
    · cases e <;> simp [pyOr, specResolve, hs]

/-! ## Claim theorems -/

/-- C7: for every configured base address the availability check issues a
single GET to `{base with "/api" removed}/api/tags`, and returns `true`
exactly when that request comes back with status 200 (any exception
counting as unavailable). -/
theorem c7_probe_url_and_status (base : String) (net : String → ProbeOutcome) :
    (_check_ollama_available base net).2
        = [Output.getRequestEvent (base.replace "/api" "" ++ "/api/tags")] ∧
    ((_check_ollama_available base net).1 = true ↔
      statusOf (net (base.replace "/api" "" ++ "/api/tags")) = some 200) := by
  simp only [_check_ollama_available, probeUrl]
  cases h : net (base.replace "/api" "" ++ "/api/tags") <;>
    simp [h, statusOf]

/-- C3: agent construction succeeds exactly when the availability probe
on the resolved base address answers with status 200 (a negative probe —
non-200 status or any exception — makes construction fail with the
connection error), and construction performs no audio capture. -/
theorem c3_init_fails_iff_probe_negative (url? model? : Option String)
    (envMap : String → Option String) (net : String → ProbeOutcome) :
    (isOkE (VoiceAgent.init url? model? envMap net).1 = true ↔
      statusOf (net (probeUrl (resolveUrl url? envMap))) = some 200) ∧
    (VoiceAgent.init url? model? envMap net).2.any Output.isCapture = false := by
  have hc := check_eq (resolveUrl url? envMap) net
  simp only [VoiceAgent.init, hc]
  refine ⟨?_, by simp [Output.isCapture]⟩
  generalize net (probeUrl (resolveUrl url? envMap)) = po
  cases po with
  | resp s =>
    by_cases hs : s = 200
    · subst hs; simp [statusBool, isOkE, statusOf]
    · simp [statusBool, isOkE, statusOf, hs]
  | exc => simp [statusBool, isOkE, statusOf]

/-- C6 counterexample: an explicitly provided empty-string override for
the base address is ignored (Python `or` treats it as falsy): with no
environment value the resolved address is the default, not the empty
override. -/
theorem c6_empty_override_ignored :
    resolveUrl (some "") (fun _ => none) = defaultUrl ∧ defaultUrl ≠ "" := by
  exact ⟨rfl, by decide⟩

/-- C6 amended: the resolved base address and model each equal the
explicit override when provided and non-empty (an empty override is
treated as absent), else the environment value when set, else the
documented default; a successfully constructed agent carries exactly
these resolved values. -/
theorem c6_resolution_amended (url? model? : Option String)
    (envMap : String → Option String) (net : String → ProbeOutcome)
    (a : VoiceAgent) (h : (VoiceAgent.init url? model? envMap net).1 = .ok a) :
    resolveUrl url? envMap = specResolve url? (envMap "OLLAMA_BASE_URL") defaultUrl ∧
    resolveModel model? envMap = specResolve model? (envMap "OLLAMA_MODEL") defaultModel ∧
    a.ollama_url = resolveUrl url? envMap ∧
    a.model = resolveModel model? envMap := by
  refine ⟨resolve_matches_spec _ _ _, resolve_matches_spec _ _ _, ?_⟩
  simp only [VoiceAgent.init] at h
  split at h
  · cases h; exact ⟨rfl, rfl⟩
  · cases h

/-- C6 witness: the amended resolution theorem at the default
configuration (no overrides, empty environment, probe answering 200). -/
theorem c6_resolution_amended_w :
    resolveUrl none (fun _ => none) = specResolve none none defaultUrl ∧
    resolveModel none (fun _ => none) = specResolve none none defaultModel ∧
    dAgent.ollama_url = resolveUrl none (fun _ => none) ∧
    dAgent.model = resolveModel none (fun _ => none) :=
  c6_resolution_amended none none (fun _ => none) (fun _ => .resp 200) dAgent rfl

/-- C4 counterexample: a 200 response whose body is
`{"message": 5}` lacks the nested `message.content` field, yet
`get_llm_response` returns `none` (the attribute access on the non-dict
raises and is swallowed), not the "no answer" placeholder. -/
theorem c4_nonobject_message_gives_none :
    (get_llm_response dAgent "q"
        (stubNet (.resp ⟨200, "", some (.obj [("message", Json.num 5)])⟩))).1 = none ∧
    (none : Option Json) ≠ some (Json.str "Нет ответа") := by
  exact ⟨rfl, by simp⟩

/-- C4 amended: for a 200 response whose body is a JSON object, the
reply is the "Нет ответа" placeholder when the "message" field is absent
or is an object without a "content" field; it is exactly the stored
value when `message.content` is present; and it is `none` when the
"message" field holds a non-object (the attribute access raises and the
call is treated as failed). -/
theorem c4_reply_extraction (a : VoiceAgent) (t s : String)
    (fields : List (String × Json)) :
    (get_llm_response a t (stubNet (.resp ⟨200, s, some (.obj fields)⟩))).1
      = (match fields.lookup "message" with
         | none => some (Json.str "Нет ответа")
         | some (Json.obj mf) =>
           (match mf.lookup "content" with
            | none => some (Json.str "Нет ответа")
            | some v => some v)
         | some _ => none) := by
  simp only [get_llm_response, stubNet, extractReply, Json.getD]
  cases h : fields.lookup "message" with
  | none => simp only [h]; rfl
  | some v =>
    cases v with
    | obj mf =>
      cases hc : mf.lookup "content" with
      | none => simp only [h, hc]; rfl
      | some v2 => simp only [h, hc]; rfl
    | null => simp only [h]; rfl
    | bool b => simp only [h]; rfl
    | num n => simp only [h]; rfl
    | str st => simp only [h]; rfl
    | arr xs => simp only [h]; rfl

/-- C5: a non-200 chat response makes `get_llm_response` return `none`
(no exception escapes — the status branch is taken before any parsing),
the status code is printed, and the diagnostic entry point additionally
prints the raw response body. -/
theorem c5_non_success_status (a : VoiceAgent) (t : String)
    (envMap : String → Option String) (r : HttpResponse) (h : r.status ≠ 200) :
    (get_llm_response a t (stubNet (.resp r))).1 = none ∧
    Output.apiErrorStatus r.status ∈ (get_llm_response a t (stubNet (.resp r))).2 ∧
    Output.apiErrorStatus r.status ∈ test_text_to_llm t none none envMap (stubNet (.resp r)) ∧
    Output.rawBodyNotice r.text ∈ test_text_to_llm t none none envMap (stubNet (.resp r)) := by
  simp [get_llm_response, test_text_to_llm, stubNet, h]

/-- C5 witness: the non-success theorem at a concrete 500 response. -/
theorem c5_non_success_status_w :
    (get_llm_response dAgent "q" (stubNet (.resp ⟨500, "boom", none⟩))).1 = none ∧
    Output.apiErrorStatus 500 ∈ (get_llm_response dAgent "q" (stubNet (.resp ⟨500, "boom", none⟩))).2 ∧
    Output.apiErrorStatus 500 ∈ test_text_to_llm "q" none none (fun _ => none) (stubNet (.resp ⟨500, "boom", none⟩)) ∧
    Output.rawBodyNotice "boom" ∈ test_text_to_llm "q" none none (fun _ => none) (stubNet (.resp ⟨500, "boom", none⟩)) :=
  c5_non_success_status dAgent "q" (fun _ => none) ⟨500, "boom", none⟩ (by decide)

/-- C9: `get_llm_response` carries no hidden state: with the same
utterance and the same stub endpoint, two calls are identical (result
and trace), and each call issues exactly the one payload determined by
the model and the utterance. -/
theorem c9_idempotent (a : VoiceAgent) (t : String) (net : ChatRequest → HttpResult) :
    get_llm_response a t net = get_llm_response a t net ∧
    requestsOf (get_llm_response a t net).2 = [mkPayload a.model t] := by
  refine ⟨rfl, ?_⟩
  simp only [get_llm_response]
  cases h : net (mkPayload a.model t) with
  | resp r =>
    by_cases hs : r.status = 200
    · simp only [hs]
      cases hj : r.jsonBody with
      | none => simp [requestsOf]
      | some j => cases he : extractReply j <;> simp [he, requestsOf]
    · simp [hs, requestsOf]
  | timeoutExc => simp [requestsOf]
  | connExc => simp [requestsOf]
  | otherExc => simp [requestsOf]

/-- C10: a 200 response with `message.content = ""` makes `getReply`
return the empty string, but the voice cycle treats it as a failed
iteration: `process_voice_command` returns `none` and no reply block is
printed. -/
theorem c10_empty_reply_dropped (a : VoiceAgent) (t : String) :
    (get_llm_response a t (chatStub "")).1 = some (Json.str "") ∧
    (process_voice_command a (.heard t) (chatStub "")).1 = none ∧
    (process_voice_command a (.heard t) (chatStub "")).2.any Output.isReplyBlock = false :=
  ⟨rfl, rfl, rfl⟩

/-- C1 counterexample: an iteration whose capture times out (no reply at
all) still issues the blocking confirmation prompt — `input(...)` is
unconditional in the loop body — contradicting "no confirmation prompt
on no reply". -/
theorem c1_prompt_on_no_reply :
    (mainIteration dAgent .waitTimeout (chatStub "x")).1 = LoopStep.toIdle ∧
    (mainIteration dAgent .waitTimeout (chatStub "x")).2.any Output.isConfirm = true ∧
    (mainIteration dAgent .waitTimeout (chatStub "x")).2.any Output.isReplyBlock = false :=
  ⟨rfl, rfl, rfl⟩

/-- C1 amended: whenever an iteration produces no reply the loop skips
the reply presentation and the termination check and continues, but the
blocking confirmation prompt is still issued — it follows every
non-terminating iteration, with or without a reply. -/
theorem c1_amended_no_reply (a : VoiceAgent) (lo : ListenOutcome)
    (net : ChatRequest → HttpResult)
    (h : (process_voice_command a lo net).1 = none) :
    (mainIteration a lo net).1 = LoopStep.toIdle ∧
    (mainIteration a lo net).2
      = (process_voice_command a lo net).2 ++ [Output.confirmPrompt] := by
  simp [mainIteration, h]

/-- C1 witness: the amended statement at a concrete failing iteration
(LLM connection error). -/
theorem c1_amended_no_reply_w :
    (mainIteration dAgent (.heard "hi") (stubNet .connExc)).1 = LoopStep.toIdle ∧
    (mainIteration dAgent (.heard "hi") (stubNet .connExc)).2
      = (process_voice_command dAgent (.heard "hi") (stubNet .connExc)).2
          ++ [Output.confirmPrompt] :=
  c1_amended_no_reply dAgent (.heard "hi") (stubNet .connExc) rfl

/-- C2 counterexample: the presented reply "stop" contains the word
"stop", yet the loop does not terminate: the keyword set holds the
Cyrillic "стоп", not the Latin "stop". -/
theorem c2_latin_stop_not_keyword :
    (mainIteration dAgent (.heard "hi") (chatStub "stop")).2.any Output.isReplyBlock = true ∧
    (mainIteration dAgent (.heard "hi") (chatStub "stop")).1 ≠ LoopStep.terminated := by
  exact ⟨rfl, by decide⟩

theorem process_heard_stub (a : VoiceAgent) (t s : String) :
    process_voice_command a (.heard t) (chatStub s)
      = (if (Json.str s).truthy
         then (some (Json.str s),
           [Output.micCapture, Output.processingNotice, Output.recognizedNotice t,
            Output.sendingNotice a.model, Output.chatRequestEvent (mkPayload a.model t),
            Output.replyBlock (Json.str s)])
         else (none,
           [Output.micCapture, Output.processingNotice, Output.recognizedNotice t,
            Output.sendingNotice a.model, Output.chatRequestEvent (mkPayload a.model t)])) := rfl

theorem mainIteration_heard_str (a : VoiceAgent) (t s : String)
    (hne : (s == "") = false) :
    (mainIteration a (.heard t) (chatStub s)).1
      = (if keywordHit s then LoopStep.terminated else LoopStep.toIdle) := by
  have ht : (Json.str s).truthy = true := by simp [Json.truthy, hne]
  simp only [mainIteration, process_heard_stub, ht, if_true]
  by_cases hk : keywordHit s <;> simp [hk]

/-- C2 amended: a presented (non-empty) reply terminates the loop iff
its lower-cased text contains one of the keywords "выход", "exit",
"quit", "стоп" — the Cyrillic stop word, in any letter case, terminates,
while the Latin "stop" is not in the set. -/
theorem c2_amended_keywords (a : VoiceAgent) (t s : String) (h : s ≠ "") :
    ((mainIteration a (.heard t) (chatStub s)).1 = LoopStep.terminated ↔
      keywordHit s = true) ∧
    keywordHit "СТОП" = true ∧ keywordHit "stop" = false := by
  have hne : (s == "") = false := by simp [h]
  refine ⟨?_, by decide, by decide⟩
  rw [mainIteration_heard_str a t s hne]
  by_cases hk : keywordHit s <;> simp [hk]

/-- C2 witness: the amended keyword rule at the concrete reply "выход". -/
theorem c2_amended_keywords_w :
    (((mainIteration dAgent (.heard "hi") (chatStub "выход")).1 = LoopStep.terminated ↔
      keywordHit "выход" = true) ∧
     keywordHit "СТОП" = true ∧ keywordHit "stop" = false) :=
  c2_amended_keywords dAgent "hi" "выход" (by decide)

theorem test_call_shape (q : String) (envMap : String → Option String)
    (net : ChatRequest → HttpResult) :
    requestsOf (test_text_to_llm q none none envMap net)
        = [mkPayload (resolveModel none envMap) q] ∧
    ((test_text_to_llm q none none envMap net).filter Output.isResultBlock).length = 1 ∧
    (test_text_to_llm q none none envMap net).any Output.isConfirm = false := by
  simp only [test_text_to_llm]
  cases h : net (mkPayload (resolveModel none envMap) q) with
  | resp r =>
    by_cases hs : r.status = 200
    · simp only [hs]
      cases hj : r.jsonBody with
      | none => simp [requestsOf, Output.isResultBlock, Output.isConfirm]
      | some j =>
        cases he : extractReply j <;>
          simp [he, requestsOf, Output.isResultBlock, Output.isConfirm]
    · simp [hs, requestsOf, Output.isResultBlock, Output.isConfirm]
  | timeoutExc => simp [requestsOf, Output.isResultBlock, Output.isConfirm]
  | connExc => simp [requestsOf, Output.isResultBlock, Output.isConfirm]
  | otherExc => simp [requestsOf, Output.isResultBlock, Output.isConfirm]

/-- C8: whatever the endpoint does on each call, diagnostic mode issues
exactly one chat request per query — the payloads of the three fixed
queries, in order — prints exactly one result block per query, and never
shows a confirmation prompt. -/
theorem c8_diagnostic_sequence (envMap : String → Option String)
    (net : ChatRequest → HttpResult) :
    requestsOf (testMain envMap net)
        = test_queries.map (fun q => mkPayload (resolveModel none envMap) q) ∧
    ((testMain envMap net).filter Output.isResultBlock).length = 3 ∧
    (testMain envMap net).any Output.isConfirm = false := by
  have h1 := test_call_shape "посчитай два плюс два" envMap net
  have h2 := test_call_shape "дай определение искусственного интеллекта в одном предложении" envMap net
  have h3 := test_call_shape "скажи короткий анекдот" envMap net
  refine ⟨?_, ?_, ?_⟩
  · simp only [testMain, runQueries, test_queries, requestsOf_append,
      requestsOf_header, requestsOf_nil, h1.1, h2.1, h3.1, List.map]
    simp
  · simp only [testMain, runQueries, test_queries, List.filter_append, List.length_append]
    simp [Output.isResultBlock, h1.2.1, h2.2.1, h3.2.1]
  · simp only [testMain, runQueries, test_queries, List.any_append]
    simp [Output.isConfirm, h1.2.2, h2.2.2, h3.2.2]
